import Mathlib

/-!
Shallow embedding of the agent-runner orchestration engine
(run lifecycle, scheduler, judge queue, persistence reconciliation),
translated from the TypeScript sources: the orchestrator module
(vite.config.ts portion holding runs/persistence/pipeline), worker.ts
(spawnWorker, addLog, addActivity) and types.ts (the data model).

Identifiers that are nanoid strings in the source are modelled as
abstract natural numbers; timestamps (Date.now()) are explicit Nat
parameters.  maxWorkers is an Int because JavaScript numbers admit
negative requests.
-/

namespace AgentRunner

/-- Task statuses from types.ts. -/
inductive TaskStatus
  | pending
  | in_progress
  | completed
  | failed
  | cancelled
deriving DecidableEq, Repr

/-- Run statuses from types.ts. -/
inductive RunStatus
  | idle
  | planning
  | executing
  | judging
  | completed
  | failed
  | stopped
  | paused
deriving DecidableEq, Repr

/-- Worker statuses from types.ts. -/
inductive WorkerStatus
  | idle
  | running
  | completed
  | failed
  | merging
deriving DecidableEq, Repr

/-- A log entry (types.ts LogEntry). -/
structure LogEntry where
  timestamp : Nat
  level : String
  source : String
  message : String
deriving DecidableEq, Repr

/-- A structured worker activity record (types.ts WorkerActivity). -/
structure WorkerActivity where
  type : String
  summary : String
  timestamp : Nat
deriving DecidableEq, Repr

/-- A worker record (types.ts Worker). -/
structure Worker where
  id : Nat
  status : WorkerStatus
  taskId : Option Nat
  logs : List LogEntry
  activity : List WorkerActivity
  startedAt : Nat
  completedAt : Option Nat
deriving DecidableEq, Repr

/-- A task record (types.ts Task). -/
structure Task where
  id : Nat
  title : String
  description : String
  status : TaskStatus
  priority : Int
  dependencies : List Nat
  result : Option String
  error : Option String
  spawnedBy : Option Nat
  createdAt : Nat
  startedAt : Option Nat
  completedAt : Option Nat
deriving DecidableEq, Repr

/-- A judgement record (types.ts Judgement). -/
structure Judgement where
  id : Nat
  taskId : Nat
  assessment : String
  newTaskIds : List Nat
  goalComplete : Bool
  timestamp : Nat
deriving DecidableEq, Repr

/-- Event types emitted on the event bus (types.ts EventType). -/
inductive EventType
  | runCreated
  | runUpdated
  | runCompleted
  | runFailed
  | taskUpdated
  | workerCreated
  | workerUpdated
  | workerLog
  | judgementCreated
  | log
deriving DecidableEq, Repr

/-- A run record (types.ts Run). -/
structure Run where
  id : Nat
  goal : String
  targetDir : String
  status : RunStatus
  analysis : String
  tasks : List Task
  judgements : List Judgement
  workers : List Worker
  maxWorkers : Int
  createdAt : Nat
  completedAt : Option Nat
  error : Option String
deriving DecidableEq, Repr

/-! ## createRun (orchestrator: createRun) -/

/-- MAX_CONCURRENT_WORKERS from the orchestrator. -/
def MAX_CONCURRENT_WORKERS : Int := 10

/-- The maxWorkers computation in createRun:
`Math.min(maxWorkers || 3, MAX_CONCURRENT_WORKERS)`.
An absent argument and the falsy value 0 default to 3. -/
def createRunMaxWorkers (requested : Option Int) : Int :=
  min (match requested with
        | none => 3
        | some m => if m = 0 then 3 else m)
      MAX_CONCURRENT_WORKERS

/-- createRun: builds the initial idle run record. -/
def createRun (goal targetDir : String) (requested : Option Int)
    (rid now : Nat) : Run :=
  { id := rid
    goal := goal
    targetDir := targetDir
    status := RunStatus.idle
    analysis := ""
    tasks := []
    judgements := []
    workers := []
    maxWorkers := createRunMaxWorkers requested
    createdAt := now
    completedAt := none
    error := none }

/-! ## Ready-task computation and worker spawning
(orchestrator: executePipeline, getReadyTasks) -/

/-- `run.tasks.find((t) => t.id === tid)`: first task with the given id. -/
def lookupTask (tasks : List Task) (tid : Nat) : Option Task :=
  tasks.find? (fun t => t.id == tid)

/-- One dependency check inside getReadyTasks:
the dependency task exists and its status is completed
(a missing dependency makes the task not ready). -/
def depCompleted (tasks : List Task) (depId : Nat) : Bool :=
  match lookupTask tasks depId with
  | some d => d.status == TaskStatus.completed
  | none => false

/-- The getReadyTasks predicate for one task: pending and every
dependency completed. -/
def isReady (tasks : List Task) (t : Task) : Bool :=
  t.status == TaskStatus.pending && t.dependencies.all (depCompleted tasks)

/-- getReadyTasks: `run.tasks.filter(...)` — the filter preserves the
order of run.tasks (creation order); there is no sorting. -/
def getReadyTasks (tasks : List Task) : List Task :=
  tasks.filter (isReady tasks)

/-- The spawn loop's selection: iterate the ready list in order,
stopping as soon as `runningTasks.size >= run.maxWorkers`; `slots` is
`maxWorkers - runningTasks.size` and shrinks by one per spawn. -/
def spawnSelect (ready : List Task) (slots : Int) : List Task :=
  match ready with
  | [] => []
  | t :: rest => if slots ≤ 0 then [] else t :: spawnSelect rest (slots - 1)

/-- Setting a task in progress in the spawn loop:
`task.status = "in_progress"; task.startedAt = Date.now()`. -/
def startTask (now : Nat) (t : Task) : Task :=
  { t with status := TaskStatus.in_progress, startedAt := some now }

/-- The worker record built by spawnWorker (worker.ts): born running
with empty logs and activity. -/
def initWorker (wid tid now : Nat) : Worker :=
  { id := wid
    status := WorkerStatus.running
    taskId := some tid
    logs := []
    activity := []
    startedAt := now
    completedAt := none }

/-- One pass of the spawn loop in executePipeline: the ready tasks are
computed once, then the first `maxWorkers - running` of them are set
in_progress and a running worker record is appended for each. -/
def spawnStep (run : Run) (running : Nat) (now : Nat) : Run :=
  let selected := spawnSelect (getReadyTasks run.tasks)
                    (run.maxWorkers - (running : Int))
  let selIds := selected.map (fun t => t.id)
  { run with
    tasks := run.tasks.map
      (fun t => if selIds.contains t.id then startTask now t else t)
    workers := run.workers ++ selected.map (fun t => initWorker t.id t.id now) }

/-! ## The judge queue processor (orchestrator: processJudgeQueue) -/

/-- A follow-up task requested by the judge
(planner judgeTaskCompletion result shape): dependencies are titles. -/
structure NewTaskSpec where
  title : String
  description : String
  priority : Int
  dependencies : List String
deriving DecidableEq, Repr

/-- The outcome of one `judgeTaskCompletion` call: either a result or a
thrown error. -/
inductive JudgeOutcome
  | ok (assessment : String) (goalComplete : Bool) (newTasks : List NewTaskSpec)
  | failure (msg : String)
deriving DecidableEq, Repr

/-- Dependency-title resolution in processJudgeQueue:
`nt.dependencies.map(title => run.tasks.find(t =>
t.title.toLowerCase() === title.toLowerCase())?.id).filter(Boolean)`.
Unmatched titles are dropped. -/
def resolveDepTitles (tasks : List Task) (deps : List String) : List Nat :=
  deps.filterMap (fun depTitle =>
    (tasks.find? (fun t => t.title.toLower == depTitle.toLower)).map
      (fun t => t.id))

/-- One new task minted by the judge-queue processor, before dependency
resolution: `priority: nt.priority || 5`, `spawnedBy: judgementId`. -/
def mkNewTask (s : NewTaskSpec) (judgementId nextId now : Nat) : Task :=
  { id := nextId
    title := s.title
    description := s.description
    status := TaskStatus.pending
    priority := if s.priority = 0 then 5 else s.priority
    dependencies := []
    result := none
    error := none
    spawnedBy := some judgementId
    createdAt := now
    startedAt := none
    completedAt := none }

/-- The new-task loop of processJudgeQueue: each new task resolves its
dependency titles against run.tasks as already extended by the earlier
new tasks of the same judgement, then is appended; returns the extended
task list and the newTaskIds in creation order. -/
def addNewTasks (tasks : List Task) (specs : List NewTaskSpec)
    (judgementId nextId now : Nat) : List Task × List Nat :=
  match specs with
  | [] => (tasks, [])
  | s :: rest =>
    let t0 := mkNewTask s judgementId nextId now
    let t := { t0 with dependencies := resolveDepTitles tasks s.dependencies }
    let p := addNewTasks (tasks ++ [t]) rest judgementId (nextId + 1) now
    (p.1, t.id :: p.2)

/-- Cancellation of a still-pending task when the judge declares the
goal complete: only the status changes. -/
def cancelPending (t : Task) : Task :=
  if t.status == TaskStatus.pending
  then { t with status := TaskStatus.cancelled } else t

/-- `run.tasks.some((t) => t.status === "in_progress")`. -/
def anyInProgress (tasks : List Task) : Bool :=
  tasks.any (fun t => t.status == TaskStatus.in_progress)

/-- Events emitted per spawned follow-up task: task:updated then a log. -/
def newTaskEvents (n : Nat) : List EventType :=
  (List.replicate n [EventType.taskUpdated, EventType.log]).flatten

/-- One iteration of the processJudgeQueue while-loop for a popped task
`task`, given the outcome of the judge call.  Returns the mutated run,
whether the queue loop exited (the `return` in the goal-complete branch),
and the event types emitted in order.  `judgementId` and `nextId` stand
for the nanoid mints. -/
def judgeIteration (run : Run) (task : Task) (outcome : JudgeOutcome)
    (judgementId nextId now : Nat) : Run × Bool × List EventType :=
  -- entry: run.status = "judging"; emit run:updated; log "Evaluating…"
  let r1 : Run := { run with status := RunStatus.judging }
  let entryEvents := [EventType.runUpdated, EventType.log]
  match outcome with
  | JudgeOutcome.failure msg =>
    -- catch block: log at error level, record the synthetic judgement
    let j : Judgement :=
      { id := judgementId
        taskId := task.id
        assessment := "Judge error: " ++ msg
        newTaskIds := []
        goalComplete := false
        timestamp := now }
    let r2 : Run := { r1 with judgements := r1.judgements ++ [j] }
    -- status is still judging, so revert to executing and emit run:updated
    ({ r2 with status := RunStatus.executing }, false,
      entryEvents ++ [EventType.log] ++ [EventType.runUpdated])
  | JudgeOutcome.ok assessment goalComplete newTasks =>
    let p := addNewTasks r1.tasks newTasks judgementId nextId now
    let j : Judgement :=
      { id := judgementId
        taskId := task.id
        assessment := assessment
        newTaskIds := p.2
        goalComplete := goalComplete
        timestamp := now }
    let r2 : Run := { r1 with tasks := p.1, judgements := r1.judgements ++ [j] }
    let okEvents := entryEvents ++ newTaskEvents newTasks.length
                      ++ [EventType.judgementCreated, EventType.log]
    if goalComplete then
      -- cancel any remaining pending tasks, emitting task:updated for each
      let cancelledCount := (r2.tasks.filter
        (fun t => t.status == TaskStatus.pending)).length
      let tasks3 := r2.tasks.map cancelPending
      let r3 : Run := { r2 with tasks := tasks3 }
      let cancelEvents := List.replicate cancelledCount EventType.taskUpdated
      if anyInProgress tasks3 then
        -- "Goal marked complete — waiting"; status judging → executing
        ({ r3 with status := RunStatus.executing }, false,
          okEvents ++ cancelEvents ++ [EventType.log, EventType.runUpdated])
      else
        -- complete immediately and return out of the queue loop
        ({ r3 with status := RunStatus.completed, completedAt := some now },
          true,
          okEvents ++ cancelEvents
            ++ [EventType.runCompleted, EventType.log])
    else
      ({ r2 with status := RunStatus.executing }, false,
        okEvents ++ [EventType.runUpdated])

/-! ## Startup reconciliation (orchestrator: loadState) -/

/-- loadState on a worker: a running worker is forced to failed with
`completedAt = Date.now()`. -/
def reconcileWorker (now : Nat) (w : Worker) : Worker :=
  if w.status == WorkerStatus.running
  then { w with status := WorkerStatus.failed, completedAt := some now }
  else w

/-- The in-progress rollback used by loadState, stopRun and pauseRun:
`task.status = "pending"; task.startedAt = undefined`. -/
def rollbackTask (t : Task) : Task :=
  if t.status == TaskStatus.in_progress
  then { t with status := TaskStatus.pending, startedAt := none }
  else t

/-- loadState reconciliation of one loaded run: in-flight run statuses
become paused, running workers fail, in-progress tasks roll back. -/
def reconcileRun (now : Nat) (run : Run) : Run :=
  let st :=
    if run.status == RunStatus.planning || run.status == RunStatus.executing
        || run.status == RunStatus.judging
    then RunStatus.paused else run.status
  { run with
    status := st
    workers := run.workers.map (reconcileWorker now)
    tasks := run.tasks.map rollbackTask }

/-! ## stopRun and pauseRun (orchestrator) -/

/-- stopRun's effect on the run record.  The source checks only that the
run exists — there is no status precondition; it fails running workers,
rolls back in-progress tasks, then unconditionally sets status stopped
and overwrites completedAt with the current time. -/
def stopRun (now : Nat) (run : Run) : Run :=
  { run with
    workers := run.workers.map (fun w =>
      if w.status == WorkerStatus.running
      then { w with status := WorkerStatus.failed, completedAt := some now }
      else w)
    tasks := run.tasks.map (fun t =>
      if t.status == TaskStatus.in_progress
      then { t with status := TaskStatus.pending, startedAt := none }
      else t)
    status := RunStatus.stopped
    completedAt := some now }

/-- pauseRun's effect on the run record: legal only from
planning/executing/judging (else a thrown precondition error); sets
status paused and rolls in-progress tasks back to pending.  It does not
touch the worker records (killWorkers only aborts the agent loops). -/
def pauseRun (run : Run) : Except String Run :=
  if run.status == RunStatus.planning || run.status == RunStatus.executing
      || run.status == RunStatus.judging
  then Except.ok { run with
    status := RunStatus.paused
    tasks := run.tasks.map rollbackTask }
  else Except.error "can only pause active runs"

/-- The catch branch of spawnWorker's completion continuation
(worker.ts): when the agent loop throws — including the
`throw new Error("Aborted")` raised on cancellation — the task is
unconditionally marked failed with the error text and completedAt. -/
def workerFailTask (now : Nat) (msg : String) (t : Task) : Task :=
  { t with
    status := TaskStatus.failed
    error := some msg
    completedAt := some now }

/-! ## Worker log and activity bookkeeping (worker.ts) -/

/-- addLog: push the entry, then cap at the most recent 500
(`worker.logs.slice(-500)`). -/
def addLog (w : Worker) (now : Nat) (level message : String) : Worker :=
  let entry : LogEntry :=
    { timestamp := now
      level := level
      source := "worker-" ++ toString w.id
      message := message }
  let l := w.logs ++ [entry]
  { w with logs := if l.length > 500 then l.drop (l.length - 500) else l }

/-- addActivity: push the activity, cap at the most recent 200
(`worker.activity.slice(-200)`), then also addLog the summary. -/
def addActivity (w : Worker) (now : Nat) (type summary : String) : Worker :=
  let a : WorkerActivity := { type := type, summary := summary, timestamp := now }
  let act := w.activity ++ [a]
  let w1 := { w with
    activity := if act.length > 200 then act.drop (act.length - 200) else act }
  addLog w1 now "info" ("[" ++ type ++ "] " ++ summary)

/-- One append operation a worker execution performs on its own record. -/
inductive WorkerOp
  | log (now : Nat) (level message : String)
  | activity (now : Nat) (type summary : String)
deriving DecidableEq, Repr

/-- Apply one append operation. -/
def applyOp (w : Worker) (op : WorkerOp) : Worker :=
  match op with
  | WorkerOp.log now level message => addLog w now level message
  | WorkerOp.activity now type summary => addActivity w now type summary

/-- Apply a whole execution trace of append operations. -/
def applyOps (w : Worker) (ops : List WorkerOp) : Worker :=
  ops.foldl applyOp w

/-- The per-worker truncation applied only at persistence time
(saveRun): logs and activity cut to the most recent 100. -/
def persistWorker (w : Worker) : Worker :=
  { w with
    logs := w.logs.drop (w.logs.length - 100)
    activity := w.activity.drop (w.activity.length - 100) }

/-! ## Sample records used by witnesses and counterexamples -/

/-- A task currently in progress. -/
def sampleInProgressTask : Task :=
  { id := 1, title := "T1", description := "", status := TaskStatus.in_progress
    priority := 1, dependencies := [], result := none, error := none
    spawnedBy := none, createdAt := 0, startedAt := some 5, completedAt := none }

/-- A running worker. -/
def sampleRunningWorker : Worker :=
  { id := 1, status := WorkerStatus.running, taskId := some 1, logs := []
    activity := [], startedAt := 0, completedAt := none }

/-- An executing run with one in-progress task and one running worker. -/
def sampleActiveRun : Run :=
  { id := 1, goal := "g", targetDir := "d", status := RunStatus.executing
    analysis := "", tasks := [sampleInProgressTask], judgements := []
    workers := [sampleRunningWorker], maxWorkers := 3, createdAt := 0
    completedAt := none, error := none }

/-! ## C5 — createRun maxWorkers clamping -/

/-- C5 counterexample: the claim says a negative requested maxWorkers
yields a value of at least 1, but `Math.min(maxWorkers || 3, 10)` has no
lower clamp: a request of -5 produces maxWorkers = -5, and createRun
raises no error. -/
theorem createRun_maxWorkers_counterexample :
    (createRun "g" "d" (some (-5)) 1 0).maxWorkers = -5
    ∧ ¬ (1 ≤ (createRun "g" "d" (some (-5)) 1 0).maxWorkers) := by
  decide

/-- C5 (amended): createRun computes
`maxWorkers = min(requested || 3, 10)`: absent or zero yields 3, a value
above 10 yields 10, a value in [1, 10] passes through, and a negative
value passes through unclamped (there is no lower bound). -/
theorem createRun_maxWorkers_clamping (g d : String) (m : Int) (rid now : Nat) :
    (createRun g d none rid now).maxWorkers = 3
    ∧ (m = 0 → (createRun g d (some m) rid now).maxWorkers = 3)
    ∧ (1 ≤ m → m ≤ 10 → (createRun g d (some m) rid now).maxWorkers = m)
    ∧ (10 < m → (createRun g d (some m) rid now).maxWorkers = 10)
    ∧ (m < 0 → (createRun g d (some m) rid now).maxWorkers = m) := by
  refine ⟨?_, ?_, ?_, ?_, ?_⟩ <;>
    intros <;>
    simp only [createRun, createRunMaxWorkers, MAX_CONCURRENT_WORKERS] <;>
    omega

/-- C5 witness: the amended clamping facts at concrete inputs. -/
theorem createRun_maxWorkers_clamping_witness :
    (createRun "g" "d" (some 7) 1 0).maxWorkers = 7
    ∧ (createRun "g" "d" (some 99) 1 0).maxWorkers = 10
    ∧ (createRun "g" "d" (some 0) 1 0).maxWorkers = 3 := by
  refine ⟨?_, ?_, ?_⟩
  · exact (createRun_maxWorkers_clamping "g" "d" 7 1 0).2.2.1 (by decide) (by decide)
  · exact (createRun_maxWorkers_clamping "g" "d" 99 1 0).2.2.2.1 (by decide)
  · exact (createRun_maxWorkers_clamping "g" "d" 0 1 0).2.1 rfl

/-! ## C3 — loadState reconciliation -/

/-- C3: after loadState reconciliation, no run is left planning,
executing or judging (any such run is forced to paused); no worker is
left running (forced to failed with completedAt = now); no task is left
in_progress (rolled back to pending with startedAt cleared). -/
theorem loadState_reconciliation_invariant (run : Run) (now : Nat) :
    ((reconcileRun now run).status ≠ RunStatus.planning
      ∧ (reconcileRun now run).status ≠ RunStatus.executing
      ∧ (reconcileRun now run).status ≠ RunStatus.judging)
    ∧ (∀ w ∈ (reconcileRun now run).workers, w.status ≠ WorkerStatus.running)
    ∧ (∀ t ∈ (reconcileRun now run).tasks, t.status ≠ TaskStatus.in_progress)
    ∧ ((run.status = RunStatus.planning ∨ run.status = RunStatus.executing
          ∨ run.status = RunStatus.judging)
        → (reconcileRun now run).status = RunStatus.paused)
    ∧ (reconcileRun now run).workers = run.workers.map (reconcileWorker now)
    ∧ (∀ w : Worker, w.status = WorkerStatus.running
        → reconcileWorker now w
            = { w with status := WorkerStatus.failed, completedAt := some now })
    ∧ (reconcileRun now run).tasks = run.tasks.map rollbackTask
    ∧ (∀ t : Task, t.status = TaskStatus.in_progress
        → rollbackTask t
            = { t with status := TaskStatus.pending, startedAt := none }) := by
  refine ⟨⟨?_, ?_, ?_⟩, ?_, ?_, ?_, rfl, ?_, rfl, ?_⟩
  · simp only [reconcileRun]
    split
    · simp
    · next h => cases hs : run.status <;> simp_all
  · simp only [reconcileRun]
    split
    · simp
    · next h => cases hs : run.status <;> simp_all
  · simp only [reconcileRun]
    split
    · simp
    · next h => cases hs : run.status <;> simp_all
  · intro w hw
    simp only [reconcileRun, List.mem_map] at hw
    obtain ⟨w0, _, rfl⟩ := hw
    simp only [reconcileWorker]
    split
    · simp
    · next h => simpa using h
  · intro t ht
    simp only [reconcileRun, List.mem_map] at ht
    obtain ⟨t0, _, rfl⟩ := ht
    simp only [rollbackTask]
    split
    · simp
    · next h => simpa using h
  · intro h
    simp only [reconcileRun]
    rcases h with h | h | h <;> simp [h]
  · intro w hw
    simp [reconcileWorker, hw]
  · intro t ht
    simp [rollbackTask, ht]

/-- C3 witness: reconciliation at a concrete in-flight run. -/
theorem loadState_reconciliation_invariant_witness :
    (reconcileRun 42 sampleActiveRun).status = RunStatus.paused
    ∧ reconcileWorker 42 sampleRunningWorker
        = { sampleRunningWorker with
              status := WorkerStatus.failed, completedAt := some 42 }
    ∧ rollbackTask sampleInProgressTask
        = { sampleInProgressTask with
              status := TaskStatus.pending, startedAt := none } := by
  have h := loadState_reconciliation_invariant sampleActiveRun 42
  exact ⟨h.2.2.2.1 (Or.inr (Or.inl rfl)),
    h.2.2.2.2.2.1 sampleRunningWorker rfl,
    h.2.2.2.2.2.2.2 sampleInProgressTask rfl⟩

/-! ## C4 — stopRun idempotence -/

/-- C4 counterexample: the claim says a second stopRun on a stopped run
is a no-op (completedAt unchanged) or a precondition error, and that
stop is legal only from non-terminal active states.  The source has no
status precondition at all: a second stop overwrites completedAt with
the new time, and a stop of a completed run is accepted and flips it to
stopped. -/
theorem stopRun_second_call_counterexample :
    (stopRun 200 (stopRun 100 sampleActiveRun)).completedAt
        ≠ (stopRun 100 sampleActiveRun).completedAt
    ∧ (stopRun 100 sampleActiveRun).completedAt = some 100
    ∧ (stopRun 200 (stopRun 100 sampleActiveRun)).completedAt = some 200
    ∧ (stopRun 100 { sampleActiveRun with status := RunStatus.completed }).status
        = RunStatus.stopped := by
  decide

/-- C4 (amended): stopRun checks no status precondition — from any state
it sets status stopped; and a second stopRun changes nothing except
completedAt, which it overwrites with the time of the second call. -/
theorem stopRun_second_call_overwrites_completedAt (run : Run) (t1 t2 : Nat) :
    stopRun t2 (stopRun t1 run)
        = { stopRun t1 run with completedAt := some t2 }
    ∧ (stopRun t1 run).status = RunStatus.stopped := by
  constructor
  · simp only [stopRun, List.map_map, Run.mk.injEq, true_and, and_true]
    constructor
    · apply List.map_congr_left
      intro t _
      simp only [Function.comp_apply]
      by_cases h : t.status == TaskStatus.in_progress <;> simp [h]
    · apply List.map_congr_left
      intro w _
      simp only [Function.comp_apply]
      by_cases h : w.status == WorkerStatus.running <;> simp [h]
  · rfl

/-! ## C9 — in-memory log and activity bounds -/

/-- addLog keeps the log list within 500 entries. -/
theorem addLog_logs_le (w : Worker) (now : Nat) (level message : String)
    (h : w.logs.length ≤ 500) :
    (addLog w now level message).logs.length ≤ 500 := by
  simp only [addLog]
  split
  · simp only [List.length_drop]
    omega
  · simp only [List.length_append, List.length_cons, List.length_nil] at *
    omega

/-- addLog leaves the activity list unchanged. -/
theorem addLog_activity_eq (w : Worker) (now : Nat) (level message : String) :
    (addLog w now level message).activity = w.activity := rfl

/-- addActivity keeps the activity list within 200 entries. -/
theorem addActivity_activity_le (w : Worker) (now : Nat) (type summary : String)
    (h : w.activity.length ≤ 200) :
    (addActivity w now type summary).activity.length ≤ 200 := by
  simp only [addActivity, addLog]
  split
  · simp only [List.length_drop]
    omega
  · simp only [List.length_append, List.length_cons, List.length_nil] at *
    omega

/-- addActivity keeps the log list within 500 entries (it appends one
log entry through addLog). -/
theorem addActivity_logs_le (w : Worker) (now : Nat) (type summary : String)
    (h : w.logs.length ≤ 500) :
    (addActivity w now type summary).logs.length ≤ 500 := by
  simp only [addActivity]
  exact addLog_logs_le _ now "info" _ h

/-- Both bounds are preserved by any single append operation. -/
theorem applyOp_bounds (w : Worker) (op : WorkerOp)
    (h1 : w.logs.length ≤ 500) (h2 : w.activity.length ≤ 200) :
    (applyOp w op).logs.length ≤ 500
    ∧ (applyOp w op).activity.length ≤ 200 := by
  cases op with
  | log now level message =>
    simp only [applyOp]
    refine ⟨addLog_logs_le w now level message h1, ?_⟩
    rw [addLog_activity_eq]
    exact h2
  | activity now type summary =>
    simp only [applyOp]
    exact ⟨addActivity_logs_le w now type summary h1,
      addActivity_activity_le w now type summary h2⟩

/-- Bounds are preserved by a whole trace of append operations. -/
theorem applyOps_bounds (ops : List WorkerOp) (w : Worker)
    (h1 : w.logs.length ≤ 500) (h2 : w.activity.length ≤ 200) :
    (applyOps w ops).logs.length ≤ 500
    ∧ (applyOps w ops).activity.length ≤ 200 := by
  induction ops generalizing w with
  | nil => exact ⟨h1, h2⟩
  | cons op rest ih =>
    have h := applyOp_bounds w op h1 h2
    exact ih (applyOp w op) h.1 h.2

/-- C9: throughout a worker's execution — any trace of addLog and
addActivity appends applied to the freshly spawned worker record — the
in-memory logs hold at most 500 entries and the activity at most 200;
the separate persistence-time truncation cuts a copy down to at most
100 of each without being needed for these bounds. -/
theorem worker_log_activity_bounded (wid tid now : Nat) (ops : List WorkerOp)
    (w : Worker) :
    (applyOps (initWorker wid tid now) ops).logs.length ≤ 500
    ∧ (applyOps (initWorker wid tid now) ops).activity.length ≤ 200
    ∧ (persistWorker w).logs.length ≤ 100
    ∧ (persistWorker w).activity.length ≤ 100 := by
  have h := applyOps_bounds ops (initWorker wid tid now)
    (by simp [initWorker]) (by simp [initWorker])
  refine ⟨h.1, h.2, ?_, ?_⟩ <;> simp [persistWorker, List.length_drop] <;> omega

/-! ## C7 — judge failure records a synthetic judgement -/

/-- C7: when the judge call throws, the iteration appends a synthetic
judgement with assessment "Judge error: " ++ message, goalComplete
false and empty newTaskIds; the queue loop does not exit, the run
status reverts to executing (never failed), and the tasks and error
fields are untouched. -/
theorem judge_error_records_synthetic_judgement (run : Run) (task : Task)
    (msg : String) (judgementId nextId now : Nat) :
    (judgeIteration run task (JudgeOutcome.failure msg)
        judgementId nextId now).1.judgements
      = run.judgements
        ++ [{ id := judgementId, taskId := task.id,
              assessment := "Judge error: " ++ msg, newTaskIds := [],
              goalComplete := false, timestamp := now }]
    ∧ (judgeIteration run task (JudgeOutcome.failure msg)
        judgementId nextId now).2.1 = false
    ∧ (judgeIteration run task (JudgeOutcome.failure msg)
        judgementId nextId now).1.status = RunStatus.executing
    ∧ (judgeIteration run task (JudgeOutcome.failure msg)
        judgementId nextId now).1.tasks = run.tasks
    ∧ (judgeIteration run task (JudgeOutcome.failure msg)
        judgementId nextId now).1.error = run.error := by
  exact ⟨rfl, rfl, rfl, rfl, rfl⟩

/-! ## C6 — pause rollback versus the worker failure continuation -/

/-- C6: pauseRun itself rolls an in-progress task back to pending with
startedAt cleared, but the cancelled worker's completion continuation
(the catch branch of spawnWorker's done promise, reached via the
`throw new Error("Aborted")` in the agent loop) unconditionally marks
the same task failed.  Whichever order the two run in, the interrupted
task ends up failed, not pending: if the continuation fires first, the
rollback skips the task (it is no longer in_progress); if the rollback
fires first, the continuation overwrites it. -/
theorem pause_rollback_lost_to_worker_failure :
    sampleInProgressTask.status = TaskStatus.in_progress
    ∧ (pauseRun sampleActiveRun).toOption.map
          (fun r => r.tasks.map Task.status) = some [TaskStatus.pending]
    ∧ (workerFailTask 20 "Aborted" (rollbackTask sampleInProgressTask)).status
        = TaskStatus.failed
    ∧ (rollbackTask (workerFailTask 20 "Aborted" sampleInProgressTask)).status
        = TaskStatus.failed
    ∧ rollbackTask (workerFailTask 20 "Aborted" sampleInProgressTask)
        = workerFailTask 20 "Aborted" sampleInProgressTask := by
  decide

/-! ## C1 — ready-task selection order -/

/-- A ready task created first, with the larger (worse) priority value. -/
def taskPrioFive : Task :=
  { id := 1, title := "A", description := "", status := TaskStatus.pending
    priority := 5, dependencies := [], result := none, error := none
    spawnedBy := none, createdAt := 1, startedAt := none, completedAt := none }

/-- A ready task created second, with priority 1 (smaller = higher). -/
def taskPrioOne : Task :=
  { id := 2, title := "B", description := "", status := TaskStatus.pending
    priority := 1, dependencies := [], result := none, error := none
    spawnedBy := none, createdAt := 2, startedAt := none, completedAt := none }

/-- A run with both ready tasks and a single worker slot. -/
def priorityRun : Run :=
  { id := 2, goal := "g", targetDir := "d", status := RunStatus.executing
    analysis := "", tasks := [taskPrioFive, taskPrioOne], judgements := []
    workers := [], maxWorkers := 1, createdAt := 0
    completedAt := none, error := none }

/-- C1 counterexample: a run state with two ready tasks of priorities 5
and 1 and a single free worker slot.  getReadyTasks performs no sort, so
the spawn loop starts the earlier-created priority-5 task and leaves the
priority-1 task pending — the lower-priority-value task is not set
in_progress first, refuting the claimed selection order. -/
theorem spawn_order_counterexample :
    (getReadyTasks priorityRun.tasks).length = 2
    ∧ taskPrioFive.priority = 5
    ∧ taskPrioOne.priority = 1
    ∧ priorityRun.maxWorkers = 1
    ∧ (lookupTask (spawnStep priorityRun 0 10).tasks 1).map Task.status
        = some TaskStatus.in_progress
    ∧ (lookupTask (spawnStep priorityRun 0 10).tasks 2).map Task.status
        = some TaskStatus.pending := by
  decide

/-- spawnSelect takes the prefix of the ready list of length `slots`
(zero when slots is not positive). -/
theorem spawnSelect_eq_take (ready : List Task) (slots : Int) :
    spawnSelect ready slots = ready.take slots.toNat := by
  induction ready generalizing slots with
  | nil => simp [spawnSelect]
  | cons t rest ih =>
    simp only [spawnSelect]
    split
    · next h =>
      have hz : slots.toNat = 0 := by omega
      simp [hz]
    · next h =>
      have hs : slots.toNat = (slots - 1).toNat + 1 := by omega
      rw [hs, List.take_succ_cons, ih]

/-- C1 (amended): whenever workers are spawned, the ready tasks are
selected in the order they appear in run.tasks (creation order) — the
selection is the prefix, of length equal to the free worker slots, of
the in-order filter of pending tasks whose dependencies are all
completed; priority is never consulted. -/
theorem spawn_selection_creation_order (tasks : List Task) (slots : Int) :
    spawnSelect (getReadyTasks tasks) slots
      = (tasks.filter (isReady tasks)).take slots.toNat := by
  rw [getReadyTasks, spawnSelect_eq_take]

/-! ## C8 — only ready tasks are spawned -/

/-- Every task in the spawn selection comes from the ready list. -/
theorem mem_spawnSelect {t : Task} (ready : List Task) (slots : Int)
    (h : t ∈ spawnSelect ready slots) : t ∈ ready := by
  induction ready generalizing slots with
  | nil => simp [spawnSelect] at h
  | cons a rest ih =>
    simp only [spawnSelect] at h
    split at h
    · simp at h
    · rcases List.mem_cons.mp h with h1 | h2
      · exact h1 ▸ List.mem_cons_self a rest
      · exact List.mem_cons_of_mem a (ih _ h2)

/-- C8: the execution loop sets in_progress exactly the tasks of the
spawn selection, and every task in that selection is pending with every
dependency resolving to a task whose status is completed — a task with
an uncompleted dependency never transitions to in_progress. -/
theorem spawn_only_ready_tasks (run : Run) (running : Nat) (t : Task)
    (h : t ∈ spawnSelect (getReadyTasks run.tasks)
          (run.maxWorkers - (running : Int))) :
    t.status = TaskStatus.pending
    ∧ ∀ d ∈ t.dependencies,
        ∃ dt, lookupTask run.tasks d = some dt
          ∧ dt.status = TaskStatus.completed := by
  have hmem := mem_spawnSelect _ _ h
  have hready : isReady run.tasks t = true := (List.mem_filter.mp hmem).2
  simp only [isReady, Bool.and_eq_true, beq_iff_eq, List.all_eq_true] at hready
  refine ⟨hready.1, ?_⟩
  intro d hd
  have hdc := hready.2 d hd
  simp only [depCompleted] at hdc
  cases hl : lookupTask run.tasks d with
  | none => rw [hl] at hdc; simp at hdc
  | some dt =>
    rw [hl] at hdc
    simp only [beq_iff_eq] at hdc
    exact ⟨dt, rfl, hdc⟩

/-- A completed prerequisite task. -/
def depDoneTask : Task :=
  { id := 1, title := "P", description := "", status := TaskStatus.completed
    priority := 1, dependencies := [], result := some "ok", error := none
    spawnedBy := none, createdAt := 0, startedAt := some 3, completedAt := some 9 }

/-- A pending task depending on the completed one. -/
def depWaitingTask : Task :=
  { id := 2, title := "Q", description := "", status := TaskStatus.pending
    priority := 2, dependencies := [1], result := none, error := none
    spawnedBy := none, createdAt := 1, startedAt := none, completedAt := none }

/-- A run holding the dependency pair. -/
def depRun : Run :=
  { id := 3, goal := "g", targetDir := "d", status := RunStatus.executing
    analysis := "", tasks := [depDoneTask, depWaitingTask], judgements := []
    workers := [], maxWorkers := 3, createdAt := 0
    completedAt := none, error := none }

/-- C8 witness: the dependent task is in the spawn selection of depRun
and the theorem yields its pending status and its dependency's
completed status. -/
theorem spawn_only_ready_tasks_witness :
    depWaitingTask.status = TaskStatus.pending
    ∧ (lookupTask depRun.tasks 1).map Task.status
        = some TaskStatus.completed := by
  have h := spawn_only_ready_tasks depRun 0 depWaitingTask (by decide)
  refine ⟨h.1, ?_⟩
  obtain ⟨dt, hdt, hst⟩ := h.2 1 (by decide)
  rw [hdt]
  simp [hst]

/-! ## C2 — goalComplete cancels pending tasks and may complete the run -/

/-- cancelPending never leaves a pending task. -/
theorem cancelPending_status_ne_pending (t : Task) :
    (cancelPending t).status ≠ TaskStatus.pending := by
  simp only [cancelPending]
  split
  · simp
  · next h => simpa using h

/-- The run returned by a goalComplete judge iteration carries the
task list with every pending task cancelled, in both branches. -/
theorem judgeIteration_goalComplete_tasks (run : Run) (task : Task)
    (assessment : String) (newTasks : List NewTaskSpec)
    (judgementId nextId now : Nat) :
    (judgeIteration run task (JudgeOutcome.ok assessment true newTasks)
        judgementId nextId now).1.tasks
      = ((addNewTasks run.tasks newTasks judgementId nextId now).1).map
          cancelPending := by
  simp only [judgeIteration]
  split
  · split <;> rfl
  · next h => simp at h

/-- C2: when a judgement with goalComplete = true is recorded, every
task pending at that point (including the judge's freshly appended
tasks) is transitioned to cancelled; and if no task is then
in_progress, the run's status is set to completed with completedAt set,
run:completed is emitted, and the judge queue loop exits. -/
theorem goalComplete_cancels_pending_and_completes (run : Run) (task : Task)
    (assessment : String) (newTasks : List NewTaskSpec)
    (judgementId nextId now : Nat) :
    (judgeIteration run task (JudgeOutcome.ok assessment true newTasks)
        judgementId nextId now).1.tasks
      = ((addNewTasks run.tasks newTasks judgementId nextId now).1).map
          cancelPending
    ∧ (∀ t : Task, t.status = TaskStatus.pending
        → cancelPending t = { t with status := TaskStatus.cancelled })
    ∧ (∀ t ∈ (judgeIteration run task (JudgeOutcome.ok assessment true newTasks)
          judgementId nextId now).1.tasks, t.status ≠ TaskStatus.pending)
    ∧ (anyInProgress (judgeIteration run task
          (JudgeOutcome.ok assessment true newTasks)
          judgementId nextId now).1.tasks = false
        → (judgeIteration run task (JudgeOutcome.ok assessment true newTasks)
              judgementId nextId now).1.status = RunStatus.completed
          ∧ (judgeIteration run task (JudgeOutcome.ok assessment true newTasks)
              judgementId nextId now).1.completedAt = some now
          ∧ (judgeIteration run task (JudgeOutcome.ok assessment true newTasks)
              judgementId nextId now).2.1 = true
          ∧ EventType.runCompleted ∈ (judgeIteration run task
              (JudgeOutcome.ok assessment true newTasks)
              judgementId nextId now).2.2) := by
  refine ⟨judgeIteration_goalComplete_tasks run task assessment newTasks
    judgementId nextId now, ?_, ?_, ?_⟩
  · intro t ht
    simp [cancelPending, ht]
  · intro t ht
    rw [judgeIteration_goalComplete_tasks] at ht
    obtain ⟨t0, _, rfl⟩ := List.mem_map.mp ht
    exact cancelPending_status_ne_pending t0
  · intro h
    rw [judgeIteration_goalComplete_tasks] at h
    simp only [judgeIteration, h, Bool.false_eq_true, if_false,
      eq_self_iff_true, if_true]
    simp

/-- A completed task awaiting judgement. -/
def doneTask : Task :=
  { id := 1, title := "T1", description := "", status := TaskStatus.completed
    priority := 1, dependencies := [], result := some "ok", error := none
    spawnedBy := none, createdAt := 0, startedAt := some 1, completedAt := some 2 }

/-- A run whose only task has completed, awaiting judgement. -/
def doneRun : Run :=
  { id := 4, goal := "g", targetDir := "d", status := RunStatus.judging
    analysis := "", judgements := [], workers := [], maxWorkers := 3
    createdAt := 0, completedAt := none, error := none
    tasks := [doneTask] }

/-- C2 witness: judging doneRun with goalComplete = true and no new
tasks completes the run at once. -/
theorem goalComplete_cancels_pending_and_completes_witness :
    (judgeIteration doneRun doneTask
        (JudgeOutcome.ok "done" true []) 7 8 50).1.status = RunStatus.completed
    ∧ (judgeIteration doneRun doneTask
        (JudgeOutcome.ok "done" true []) 7 8 50).1.completedAt = some 50
    ∧ (judgeIteration doneRun doneTask
        (JudgeOutcome.ok "done" true []) 7 8 50).2.1 = true := by
  have h := (goalComplete_cancels_pending_and_completes doneRun
    doneTask "done" [] 7 8 50).2.2.2 (by decide)
  exact ⟨h.1, h.2.1, h.2.2.1⟩

/-! ## C10 — dependency-title resolution for judge-spawned tasks -/

/-- find? skips a prefix in which nothing matches. -/
theorem find?_append_of_none {α : Type} (p : α → Bool) (l1 l2 : List α)
    (h : l1.find? p = none) : (l1 ++ l2).find? p = l2.find? p := by
  induction l1 with
  | nil => rfl
  | cons a rest ih =>
    cases hpa : p a with
    | true => simp [List.find?_cons, hpa] at h
    | false =>
      simp only [List.find?_cons, hpa] at h
      simp only [List.cons_append, List.find?_cons, hpa]
      exact ih h

/-- C10: each follow-up task of a judgement resolves its dependency
titles case-insensitively against run.tasks as it stands at that task's
creation — so the second task of a batch can depend on the first task
of the same judgement, already appended — and any dependency title that
matches no task title is silently dropped. -/
theorem judge_newtask_dep_resolution (tasks : List Task) (s1 s2 : NewTaskSpec)
    (judgementId nextId now : Nat) (d : String)
    (h1 : s2.dependencies = [d])
    (h2 : ∀ t ∈ tasks, t.title.toLower ≠ d.toLower)
    (h3 : s1.title.toLower = d.toLower) :
    (∃ t1 t2 : Task,
      (addNewTasks tasks [s1, s2] judgementId nextId now).1 = tasks ++ [t1, t2]
      ∧ t1.id = nextId
      ∧ t1.title = s1.title
      ∧ t1.spawnedBy = some judgementId
      ∧ t1.dependencies = resolveDepTitles tasks s1.dependencies
      ∧ t2.dependencies = resolveDepTitles (tasks ++ [t1]) s2.dependencies
      ∧ t2.dependencies = [nextId])
    ∧ (∀ ts : List Task, (∀ t ∈ ts, t.title.toLower ≠ d.toLower)
        → resolveDepTitles ts [d] = []) := by
  have hnone : tasks.find? (fun t => t.title.toLower == d.toLower) = none :=
    List.find?_eq_none.mpr (fun x hx => by simpa using h2 x hx)
  constructor
  · set t1 : Task := { mkNewTask s1 judgementId nextId now with
      dependencies := resolveDepTitles tasks s1.dependencies } with ht1
    set t2 : Task := { mkNewTask s2 judgementId (nextId + 1) now with
      dependencies := resolveDepTitles (tasks ++ [t1]) s2.dependencies } with ht2
    have hkey : resolveDepTitles (tasks ++ [t1]) s2.dependencies = [nextId] := by
      rw [h1]
      simp only [resolveDepTitles, List.filterMap_cons, List.filterMap_nil]
      rw [find?_append_of_none _ _ _ hnone]
      simp [List.find?, ht1, mkNewTask, h3]
    refine ⟨t1, t2, ?_, rfl, rfl, rfl, rfl, rfl, hkey⟩
    show (tasks ++ [t1]) ++ [t2] = tasks ++ [t1, t2]
    simp
  · intro ts hts
    have hn : ts.find? (fun t => t.title.toLower == d.toLower) = none :=
      List.find?_eq_none.mpr (fun x hx => by simpa using hts x hx)
    simp [resolveDepTitles, hn]

/-- The first follow-up spec of the witness batch. -/
def specOne : NewTaskSpec :=
  { title := "Task One", description := "", priority := 1, dependencies := [] }

/-- The second follow-up spec of the witness batch, depending on the
first by title. -/
def specTwo : NewTaskSpec :=
  { title := "Task Two", description := "", priority := 2
    dependencies := ["Task One"] }

/-- C10 witness: in an empty run, the second task of the batch picks up
the first one's freshly minted id as its single dependency. -/
theorem judge_newtask_dep_resolution_witness :
    ((addNewTasks [] [specOne, specTwo] 7 100 50).1.map Task.dependencies)
      = [[], [100]]
    ∧ resolveDepTitles [] ["Task One"] = [] := by
  obtain ⟨⟨t1, t2, happ, hid, htitle, hsb, hd1, hd2a, hd2⟩, hdrop⟩ :=
    judge_newtask_dep_resolution [] specOne specTwo 7 100 50 "Task One"
      rfl (by simp) rfl
  constructor
  · rw [happ]
    have hd1e : t1.dependencies = [] := hd1
    simp [hd1e, hd2]
  · exact hdrop [] (by simp)

end AgentRunner
